import Mathlib

/-!
Verification of the Ledger & Budget Consistency Engine of the ngo-accounting
repository (src/app.py), a Flask/SQLAlchemy double-entry bookkeeping
application.  The relevant routes and model properties are shallowly embedded
below: SQLAlchemy rows become Lean structures, monetary `Decimal` values become
exact rationals, Python `date` values become integers in `yyyymmdd` form (the
code only compares dates, and `yyyymmdd` integers are order-isomorphic to
dates), and every route handler becomes a pure function from its inputs to
`Except Err <new state>` where an `Err` result models a flashed rejection plus
redirect with no committed change, and an `ok` result models the state
committed by `db.session.commit()`.

Python `float` values are exact rationals of a restricted shape; the places
where app.py converts monetary amounts through `float(...)` are embedded with
an exact model of IEEE-754 binary64 rounding (`pyFloat`, `F64`), because the
cent-level balance tolerance makes the rounding observable.
-/

/-! ## IEEE-754 binary64 value model

A finite double is a rational `m * 2^e` with `|m| < 2^53`.  `F64` carries the
pair `(m, e)` (not necessarily normalised; the value is what matters).
`pyFloat n d` is the double nearest to the decimal number `n / d`, i.e. the
exact value of Python `float(s)` for a decimal string `s` of value `n / d`
(correctly rounded, round-to-nearest, ties to even, as CPython does).
Overflow to infinity and subnormal underflow are outside the range of any
monetary amount appearing here and are not modelled.  All computation is on
`ℕ`/`ℤ` so that the kernel can evaluate it. -/

/-- Round the positive fraction `N / D` to the nearest natural number,
ties to even. -/
def rne (N D : ℕ) : ℕ :=
  let q := N / D
  let r := N % D
  if 2 * r < D then q
  else if D < 2 * r then q + 1
  else if q % 2 = 0 then q else q + 1

/-- Scale the fraction `N / D` up by powers of two (tracking the binary
exponent `e`) until `N / D ≥ 2^52`.  Fuel bounds the iteration count; it is
never exhausted for inputs in the binary64 range. -/
def upPhase : ℕ → ℕ → ℕ → ℤ → ℕ × ℕ × ℤ
  | 0, N, D, e => (N, D, e)
  | fuel + 1, N, D, e =>
    if N < D * 2 ^ 52 then upPhase fuel (N * 2) D (e - 1) else (N, D, e)

/-- Scale the fraction `N / D` down by powers of two until `N / D < 2^53`. -/
def downPhase : ℕ → ℕ → ℕ → ℤ → ℕ × ℕ × ℤ
  | 0, N, D, e => (N, D, e)
  | fuel + 1, N, D, e =>
    if D * 2 ^ 53 ≤ N then downPhase fuel N (D * 2) (e + 1) else (N, D, e)

/-- Iteration bound for the scaling phases: ample for the whole binary64
exponent range and for decimal denominators up to thousands of digits. -/
def FUEL : ℕ := 5000

/-- Mantissa/exponent of the binary64 value nearest to `n / d` (`n, d > 0`). -/
def pyFloatME (n d : ℕ) : ℕ × ℤ :=
  let u := upPhase FUEL n d 0
  let w := downPhase FUEL u.1 u.2.1 u.2.2
  (rne w.1 w.2.1, w.2.2)

/-- A binary64 value, represented exactly as `m * 2^e`. -/
structure F64 where
  m : ℤ
  e : ℤ
deriving DecidableEq, Repr

/-- The exact rational value of a binary64 datum. -/
def F64.val (x : F64) : ℚ :=
  if 0 ≤ x.e then (x.m : ℚ) * 2 ^ x.e.toNat else (x.m : ℚ) / 2 ^ (-x.e).toNat

/-- Embedding of Python `float()` applied to a decimal number `num / den`:
the correctly rounded binary64 value. -/
def pyFloat (num : ℤ) (den : ℕ) : F64 :=
  if num = 0 then ⟨0, 0⟩
  else
    let me := pyFloatME num.natAbs den
    ⟨if 0 ≤ num then (me.1 : ℤ) else -(me.1 : ℤ), me.2⟩

/-- Round the exact value `M * 2^e` to the nearest binary64 value
(the rounding step of every IEEE arithmetic operation). -/
def roundBin (M : ℤ) (e : ℤ) : F64 :=
  if M = 0 then ⟨0, 0⟩
  else
    let w := downPhase FUEL M.natAbs 1 e
    ⟨if 0 ≤ M then (rne w.1 w.2.1 : ℤ) else -(rne w.1 w.2.1 : ℤ), w.2.2⟩

/-- IEEE binary64 addition: the exact sum, correctly rounded. -/
def F64.add (x y : F64) : F64 :=
  let e := min x.e y.e
  roundBin (x.m * 2 ^ (x.e - e).toNat + y.m * 2 ^ (y.e - e).toNat) e

/-- IEEE binary64 subtraction: the exact difference, correctly rounded. -/
def F64.sub (x y : F64) : F64 :=
  let e := min x.e y.e
  roundBin (x.m * 2 ^ (x.e - e).toNat - y.m * 2 ^ (y.e - e).toNat) e

/-- `abs` on binary64 (exact). -/
def F64.fabs (x : F64) : F64 := ⟨|x.m|, x.e⟩

/-- The `<` comparison on binary64 values (exact value comparison). -/
def F64.blt (x y : F64) : Bool :=
  let e := min x.e y.e
  decide (x.m * 2 ^ (x.e - e).toNat < y.m * 2 ^ (y.e - e).toNat)

/-- Python `sum(...)` over float values: left fold of binary64 additions
starting from `0`. -/
def fsum (l : List F64) : F64 := l.foldl F64.add ⟨0, 0⟩

/-! ## Data model

Embeddings of the SQLAlchemy models of src/app.py that the verified
operations touch.  Monetary `Numeric`/`Decimal` values are exact rationals;
dates are integers in `yyyymmdd` form (order-isomorphic to dates, and the
code only ever compares dates); nullable columns are `Option`; lifecycle
`statut` columns stay strings as in the source. -/

/-- `ExerciceComptable` (app.py lines 156-167): a fiscal year. -/
structure ExerciceComptable where
  id : ℕ
  annee : ℤ
  date_debut : ℤ
  date_fin : ℤ
  cloture : Bool
deriving DecidableEq

/-- `ImputationAnalytique` (app.py lines 441-462): an analytical allocation
of one entry line to a project. -/
structure ImputationAnalytique where
  projet_id : ℕ
  ligne_budget_id : Option ℕ
  pourcentage : ℚ
  montant : ℚ

/-- `LigneEcriture` (app.py lines 418-438): one debit/credit line of an
entry, with its analytical allocations (the `imputations_analytiques`
backref). -/
structure LigneEcriture where
  compte_id : ℕ
  projet_id : Option ℕ
  ligne_budget_id : Option ℕ
  libelle : String
  debit : ℚ
  credit : ℚ
  imputations_analytiques : List ImputationAnalytique

/-- `PieceComptable` (app.py lines 380-415): an accounting entry owning its
lines.  The `exercice` ORM relationship is embedded as the foreign key
`exercice_id`, resolved against the fiscal-year table where the code uses
it. -/
structure PieceComptable where
  numero : String
  date_piece : ℤ
  journal_id : ℕ
  exercice_id : ℕ
  libelle : String
  reference : Option String
  devise_id : Option ℕ
  taux_change : ℚ
  valide : Bool
  lignes : List LigneEcriture

/-- The value of the Python float literal `0.01` used as the balance
tolerance in `PieceComptable.est_equilibree` (app.py line 415): the binary64
value nearest to 1/100, which is strictly greater than 1/100. -/
def float001 : ℚ := (pyFloat 1 100).val

/-- The same tolerance as a binary64 datum, for the code path where the
comparison is done between floats. -/
def float001F : F64 := pyFloat 1 100

/-- `PieceComptable.total_debit` (app.py lines 405-407). -/
def PieceComptable.total_debit (p : PieceComptable) : ℚ :=
  (p.lignes.map (fun l => l.debit)).sum

/-- `PieceComptable.total_credit` (app.py lines 409-411). -/
def PieceComptable.total_credit (p : PieceComptable) : ℚ :=
  (p.lignes.map (fun l => l.credit)).sum

/-- `PieceComptable.est_equilibree` (app.py lines 413-415):
`abs(total_debit - total_credit) < 0.01`.  The line amounts compared here
are the `Numeric` column values (exact decimals); the literal `0.01` is a
Python float, so the faithful tolerance is `float001`, not 1/100. -/
def PieceComptable.est_equilibree (p : PieceComptable) : Prop :=
  |p.total_debit - p.total_credit| < float001

instance (p : PieceComptable) : Decidable p.est_equilibree := by
  unfold PieceComptable.est_equilibree
  exact inferInstance

/-- `LigneAmortissement` (app.py lines 734-754): one fiscal year's
depreciation line of a fixed asset. -/
structure LigneAmortissement where
  exercice_id : ℕ
  annee : ℤ
  dotation : ℚ
  cumul : ℚ
  valeur_nette : ℚ

/-- `Immobilisation` (app.py lines 672-731): a fixed asset owning its
depreciation lines.  Only the year and month of `date_acquisition` are
kept (the only parts the depreciation engine reads). -/
structure Immobilisation where
  code : String
  categorie : String
  date_acquisition_annee : ℤ
  date_acquisition_mois : ℕ
  valeur_acquisition : ℚ
  duree_amortissement : ℕ
  statut : String
  lignes_amortissement : List LigneAmortissement

/-- `Immobilisation.amortissement_annuel` (app.py lines 719-723):
`float(valeur_acquisition) / duree_amortissement` when the life is positive,
else 0.  The source computes this in binary64 and converts the result back
through `Decimal(str(...))`; that round trip is idealised here as exact
rational division (it is exact at every example in the specification). -/
def Immobilisation.amortissement_annuel (i : Immobilisation) : ℚ :=
  if 0 < i.duree_amortissement then
    i.valeur_acquisition / (i.duree_amortissement : ℚ)
  else 0

/-- `Immobilisation.cumul_amortissement` (app.py lines 725-727): the sum of
the recorded dotations (same binary64 idealisation). -/
def Immobilisation.cumul_amortissement (i : Immobilisation) : ℚ :=
  (i.lignes_amortissement.map (fun l => l.dotation)).sum

/-- `Avance` (app.py lines 622-669): a staff cash advance.  `statut` ranges
over en_attente, justifiee, soldee, deduite.  Timestamps are integers. -/
structure Avance where
  numero : String
  beneficiaire : String
  montant : ℚ
  statut : String
  montant_justifie : ℚ
  montant_rembourse : ℚ
  justification_notes : Option String
  date_justification : Option ℤ
  date_solde : Option ℤ

/-- `Avance.solde_restant` (app.py lines 667-669):
`float(montant) - float(montant_justifie) - float(montant_rembourse)`.
The source converts the three `Decimal` columns through binary64; the
conversion is idealised here as exact (the discrepancy it introduces is the
subject of the monetary-precision analysis around `pyFloat`). -/
def Avance.solde_restant (a : Avance) : ℚ :=
  a.montant - a.montant_justifie - a.montant_rembourse

/-- `TrancheFinancement` (app.py lines 1172-1205): one installment of a
donor financing.  `montant_recu` is a nullable column defaulting to 0. -/
structure TrancheFinancement where
  numero : ℕ
  montant_prevu : ℚ
  montant_recu : Option ℚ
  statut : String

/-- `Financement` (app.py lines 1110-1169): a donor commitment owning its
tranches (cascade delete). -/
structure Financement where
  reference : String
  montant : ℚ
  statut : String
  tranches : List TrancheFinancement

/-! ## Error model

Every rejected request in the verified routes flashes a message and
redirects without committing; each rejection site gets one constructor.
`Err.kind` classifies the sites by the error taxonomy of the specification
(ValidationError / ForbiddenError / ConflictError / NotFoundError; sites
that flash a mere warning and change nothing are tagged `avertissement`). -/

inductive ErrKind where
  | validationErr
  | forbiddenErr
  | conflictErr
  | notFoundErr
  | avertissement
deriving DecidableEq

inductive Err where
  /-- valider_ecriture on an already validated entry (flash warning). -/
  | ecritureDejaValidee
  /-- the balance check `est_equilibree` failed (flash danger). -/
  | ecritureDesequilibree
  /-- invalider_ecriture on a non-validated entry (flash warning). -/
  | ecritureNonValidee
  /-- the entry's own fiscal year is closed (modifier/invalider guards). -/
  | exerciceClot
  /-- modifier_ecriture on a validated entry. -/
  | modificationEcritureValidee
  /-- modifier_ecriture: the selected fiscal-year id does not exist. -/
  | exerciceInvalide
  /-- modifier_ecriture: moving the entry into a closed fiscal year. -/
  | exerciceCibleClot
  /-- the entry date lies outside the fiscal-year date range. -/
  | dateHorsExercice
  /-- no open fiscal year exists. -/
  | aucunExerciceOuvert
  /-- the entry's fiscal-year foreign key resolves to no row. -/
  | exerciceIntrouvable
  /-- calculer_amortissement on a non-active asset. -/
  | immobilisationInactive
  /-- calculer_amortissement already ran for this (asset, year) pair. -/
  | amortissementDejaCalcule
  /-- justifier_avance on an advance that is neither en_attente nor justifiee. -/
  | avanceNonJustifiable
  /-- deduire_avance on an advance already soldee or deduite (flash warning). -/
  | avanceDejaSoldeeOuDeduite
  /-- supprimer_financement with a tranche already (partially) received. -/
  | tranchesDejaRecues
  /-- supprimer_tranche on a tranche already (partially) received. -/
  | trancheDejaRecue
deriving DecidableEq

/-- Classification of each rejection site by the specification's error
taxonomy (spec sections 4 and 7). -/
def Err.kind : Err → ErrKind
  | .ecritureDejaValidee => .avertissement
  | .ecritureDesequilibree => .validationErr
  | .ecritureNonValidee => .avertissement
  | .exerciceClot => .forbiddenErr
  | .modificationEcritureValidee => .forbiddenErr
  | .exerciceInvalide => .validationErr
  | .exerciceCibleClot => .forbiddenErr
  | .dateHorsExercice => .validationErr
  | .aucunExerciceOuvert => .validationErr
  | .exerciceIntrouvable => .notFoundErr
  | .immobilisationInactive => .forbiddenErr
  | .amortissementDejaCalcule => .conflictErr
  | .avanceNonJustifiable => .forbiddenErr
  | .avanceDejaSoldeeOuDeduite => .forbiddenErr
  | .tranchesDejaRecues => .forbiddenErr
  | .trancheDejaRecue => .forbiddenErr

/-- The committed state after a call: an `ok` result was committed, an
`error` result was flashed and redirected with the transaction rolled back,
leaving the original state. -/
def etatApres {ε α : Type} (orig : α) : Except ε α → α
  | .ok a => a
  | .error _ => orig

/-- Whether the call committed. -/
def estOk {ε α : Type} : Except ε α → Bool
  | .ok _ => true
  | .error _ => false

/-! ## Ledger operations -/

/-- `ExerciceComptable.query.get(id)`: resolve a fiscal-year id. -/
def getExercice (exercices : List ExerciceComptable) (eid : ℕ) :
    Option ExerciceComptable :=
  exercices.find? (fun e => e.id = eid)

/-- `ExerciceComptable.query.filter_by(cloture=False).first()`: the first
open fiscal year, if any. -/
def findExerciceOuvert (exercices : List ExerciceComptable) :
    Option ExerciceComptable :=
  exercices.find? (fun e => e.cloture = false)

/-- The exact decimal value of a submitted amount field: `Decimal(s or 0)`
where the decimal string `s` of value `n / d` is embedded as the pair
`(n, d)` and an absent/empty field as `none`. -/
def decVal : Option (ℤ × ℕ) → ℚ
  | none => 0
  | some nd => (nd.1 : ℚ) / (nd.2 : ℚ)

/-- The binary64 value of a submitted amount field:
`float(s) if s else 0` (app.py lines 2641-2642). -/
def pyFloatOpt : Option (ℤ × ℕ) → F64
  | none => ⟨0, 0⟩
  | some nd => pyFloat nd.1 nd.2

/-- `valider_ecriture` (app.py lines 2795-2815).  Guards: already validated
(warning, no change), unbalanced (danger, no change); otherwise sets
`valide = True` and commits.  Note that, unlike `modifier_ecriture` and
`invalider_ecriture`, this handler never consults `piece.exercice.cloture`. -/
def valider_ecriture (p : PieceComptable) : Except Err PieceComptable :=
  if p.valide then .error .ecritureDejaValidee
  else if ¬ p.est_equilibree then .error .ecritureDesequilibree
  else .ok { p with valide := true }

/-- `invalider_ecriture` (app.py lines 2818-2839).  Guards: not validated
(warning), closed fiscal year (danger); otherwise clears `valide`. -/
def invalider_ecriture (p : PieceComptable)
    (exercices : List ExerciceComptable) : Except Err PieceComptable :=
  if ¬ p.valide then .error .ecritureNonValidee
  else
    match getExercice exercices p.exercice_id with
    | none => .error .exerciceIntrouvable
    | some ex =>
      if ex.cloture then .error .exerciceClot
      else .ok { p with valide := false }

/-- One submitted line of the edit form (parallel arrays `compte_id[]`,
`projet_id[]`, `ligne_libelle[]`, `debit[]`, `credit[]`,
`ligne_budget_id[]`, aligned here as one record per index).  A line with no
account selected is skipped by the handler. -/
structure ModifLigneForm where
  compte_id : Option ℕ
  projet_id : Option ℕ
  libelle : String
  debit : Option (ℤ × ℕ)
  credit : Option (ℤ × ℕ)
  ligne_budget_id : Option ℕ

/-- The edit form of `modifier_ecriture`, already parsed by the
presentation layer (a malformed date aborts before any state change and is
not modelled). -/
structure ModifForm where
  date_piece : ℤ
  journal_id : ℕ
  exercice_id : ℕ
  libelle : String
  reference : Option String
  devise_id : Option ℕ
  taux_change : Option ℚ
  lignes : List ModifLigneForm

/-- A recreated line of `modifier_ecriture` (app.py lines 2753-2764):
amounts go through `Decimal(... or 0)`, hence are exact; a fresh line has
no analytical allocations. -/
def ligneDeFormulaire (l : ModifLigneForm) (cid : ℕ) : LigneEcriture :=
  { compte_id := cid
    projet_id := l.projet_id
    ligne_budget_id := l.ligne_budget_id
    libelle := l.libelle
    debit := decVal l.debit
    credit := decVal l.credit
    imputations_analytiques := [] }

/-- `modifier_ecriture` (app.py lines 2678-2783).  Guards in source order:
entry already validated (danger), entry's fiscal year closed (danger);
then on POST: target fiscal year must exist and be open, the new date must
lie in its range; all lines are deleted and recreated from the form; the
balance is re-checked and the whole transaction rolled back on failure. -/
def modifier_ecriture (p : PieceComptable)
    (exercices : List ExerciceComptable) (form : ModifForm) :
    Except Err PieceComptable :=
  if p.valide then .error .modificationEcritureValidee
  else
    match getExercice exercices p.exercice_id with
    | none => .error .exerciceIntrouvable
    | some exP =>
      if exP.cloture then .error .exerciceClot
      else
        match getExercice exercices form.exercice_id with
        | none => .error .exerciceInvalide
        | some newEx =>
          if newEx.cloture then .error .exerciceCibleClot
          else if form.date_piece < newEx.date_debut ∨
              newEx.date_fin < form.date_piece then .error .dateHorsExercice
          else
            let lignes := form.lignes.filterMap (fun l =>
              match l.compte_id with
              | none => none
              | some cid => some (ligneDeFormulaire l cid))
            let p' : PieceComptable :=
              { p with
                date_piece := form.date_piece
                journal_id := form.journal_id
                exercice_id := form.exercice_id
                libelle := form.libelle
                reference := form.reference
                devise_id := form.devise_id
                taux_change := form.taux_change.getD 1
                lignes := lignes }
            if p'.est_equilibree then .ok p'
            else .error .ecritureDesequilibree

/-- One submitted line of the expert entry form (`compte_id[]`,
`projet_id[]`, `debit[]`, `credit[]`; the expert path sets no budget line
and copies the entry label onto every line). -/
structure ExpertLigneForm where
  compte_id : Option ℕ
  projet_id : Option ℕ
  debit : Option (ℤ × ℕ)
  credit : Option (ℤ × ℕ)

/-- The expert-mode creation form of `nouvelle_ecriture`. -/
structure ExpertForm where
  date_piece : ℤ
  journal_id : ℕ
  exercice_id : ℕ
  libelle : String
  reference : Option String
  devise_id : Option ℕ
  taux_change : Option ℚ
  lignes : List ExpertLigneForm

/-- `nouvelle_ecriture`, expert mode (app.py lines 2310-2321 and
2613-2655).  After the shared guard that some fiscal year is open, the
handler builds the entry directly from the form: the submitted date and the
submitted `exercice_id` are stored without any range or closure check, and
each line amount goes through Python `float(...)` (line 2641-2642), so the
stored amounts and the balance check are binary64 values.  The balance
check `est_equilibree` runs on these float-typed amounts: Python sums them
with per-addition rounding and compares to the float literal `0.01`;
on failure everything is rolled back, otherwise the entry is committed.
The generated `numero` (max id + 1, lines 2313-2315) is passed in. -/
def nouvelle_ecriture_expert (exercices : List ExerciceComptable)
    (numero : String) (form : ExpertForm) : Except Err PieceComptable :=
  match findExerciceOuvert exercices with
  | none => .error .aucunExerciceOuvert
  | some _ =>
    let kept := form.lignes.filter (fun l => l.compte_id.isSome)
    let lignes := kept.map (fun l =>
      { compte_id := (l.compte_id).getD 0
        projet_id := l.projet_id
        ligne_budget_id := none
        libelle := form.libelle
        debit := (pyFloatOpt l.debit).val
        credit := (pyFloatOpt l.credit).val
        imputations_analytiques := [] : LigneEcriture })
    let totalDebitF := fsum (kept.map (fun l => pyFloatOpt l.debit))
    let totalCreditF := fsum (kept.map (fun l => pyFloatOpt l.credit))
    if ((totalDebitF.sub totalCreditF).fabs).blt float001F then
      .ok
        { numero := numero
          date_piece := form.date_piece
          journal_id := form.journal_id
          exercice_id := form.exercice_id
          libelle := form.libelle
          reference := form.reference
          devise_id := form.devise_id
          taux_change := form.taux_change.getD 1
          valide := false
          lignes := lignes }
    else .error .ecritureDesequilibree

/-- Copy of one analytical allocation by `dupliquer_ecriture`
(app.py lines 2889-2897): only project, percentage and amount carry over. -/
def dupliquerImputation (im : ImputationAnalytique) : ImputationAnalytique :=
  { projet_id := im.projet_id
    ligne_budget_id := none
    pourcentage := im.pourcentage
    montant := im.montant }

/-- Copy of one line by `dupliquer_ecriture` (app.py lines 2875-2897). -/
def dupliquerLigne (l : LigneEcriture) : LigneEcriture :=
  { compte_id := l.compte_id
    projet_id := l.projet_id
    ligne_budget_id := l.ligne_budget_id
    libelle := l.libelle
    debit := l.debit
    credit := l.credit
    imputations_analytiques :=
      l.imputations_analytiques.map dupliquerImputation }

/-- `dupliquer_ecriture` (app.py lines 2842-2905).  Requires some open
fiscal year; copies the entry into a new non-validated entry dated today in
that open year with a fresh number and no reference, copying every line and
every analytical allocation; commits without any balance check. -/
def dupliquer_ecriture (p : PieceComptable)
    (exercices : List ExerciceComptable) (today : ℤ) (numero : String) :
    Except Err PieceComptable :=
  match findExerciceOuvert exercices with
  | none => .error .aucunExerciceOuvert
  | some ex =>
    .ok
      { numero := numero
        date_piece := today
        journal_id := p.journal_id
        exercice_id := ex.id
        libelle := p.libelle
        reference := none
        devise_id := p.devise_id
        taux_change := p.taux_change
        valide := false
        lignes := p.lignes.map dupliquerLigne }

/-! ## Depreciation engine -/

/-- The dotation computed by `calculer_amortissement` (app.py lines
4686-4697): the annual dotation, pro-rated by `(12 - month + 1)/12` when
the acquisition year equals the processed fiscal year. -/
def dotationCalculee (i : Immobilisation) (ex : ExerciceComptable) : ℚ :=
  if i.date_acquisition_annee = ex.annee then
    i.amortissement_annuel * ((12 - i.date_acquisition_mois + 1 : ℕ) : ℚ) / 12
  else i.amortissement_annuel

/-- The depreciation line recorded by `calculer_amortissement`
(app.py lines 4686-4707): dotation, new cumulative
(`cumul_precedent + dotation`), and net book value
(`valeur_acquisition - cumul_nouveau`). -/
def ligneCalculee (i : Immobilisation) (ex : ExerciceComptable) :
    LigneAmortissement :=
  { exercice_id := ex.id
    annee := ex.annee
    dotation := dotationCalculee i ex
    cumul := i.cumul_amortissement + dotationCalculee i ex
    valeur_nette := i.valeur_acquisition -
      (i.cumul_amortissement + dotationCalculee i ex) }

/-- `calculer_amortissement` (app.py lines 4659-4714).  Guards: asset must
be active (danger), some fiscal year must be open (danger), and no
depreciation line may already exist for that (asset, fiscal year) pair
(warning, the ConflictError site).  Then `dotation = amortissement_annuel`,
pro-rated by `(12 - month + 1)/12` when the acquisition year equals the
fiscal year, `cumul = cumul_amortissement + dotation`,
`valeur_nette = valeur_acquisition - cumul`, and the new line is appended
and committed. -/
def calculer_amortissement (i : Immobilisation)
    (exercices : List ExerciceComptable) : Except Err Immobilisation :=
  if i.statut ≠ "actif" then .error .immobilisationInactive
  else
    match findExerciceOuvert exercices with
    | none => .error .aucunExerciceOuvert
    | some ex =>
      if i.lignes_amortissement.any (fun l => l.exercice_id = ex.id) then
        .error .amortissementDejaCalcule
      else
        .ok
          { i with
            lignes_amortissement :=
              i.lignes_amortissement ++ [ligneCalculee i ex] }

/-! ## Advance lifecycle -/

/-- `justifier_avance` (app.py lines 3301-3334).  Guard: the advance must
still be justifiable (`statut` en_attente or justifiee, danger otherwise).
On POST it records the justified and reimbursed amounts and the notes, then
moves to `soldee` when `solde_restant ≤ 0` and to `justifiee` otherwise. -/
def justifier_avance (a : Avance) (montant_justifie montant_rembourse : ℚ)
    (notes : Option String) (now : ℤ) : Except Err Avance :=
  if ¬ (a.statut = "en_attente" ∨ a.statut = "justifiee") then
    .error .avanceNonJustifiable
  else
    let a' : Avance :=
      { a with
        montant_justifie := montant_justifie
        montant_rembourse := montant_rembourse
        justification_notes := notes
        date_justification := some now }
    if a'.solde_restant ≤ 0 then
      .ok { a' with statut := "soldee", date_solde := some now }
    else .ok { a' with statut := "justifiee" }

/-- `deduire_avance` (app.py lines 3337-3356).  Guard: rejected when the
advance is already soldee or deduite (warning, no change); otherwise the
status becomes deduite. -/
def deduire_avance (a : Avance) (now : ℤ) : Except Err Avance :=
  if a.statut = "soldee" ∨ a.statut = "deduite" then
    .error .avanceDejaSoldeeOuDeduite
  else .ok { a with statut := "deduite", date_solde := some now }

/-! ## Financing deletion guards -/

/-- Python truthiness test `t.montant_recu and t.montant_recu > 0`:
a null or zero received amount is falsy. -/
def recuPositif (t : TrancheFinancement) : Bool :=
  match t.montant_recu with
  | none => false
  | some x => decide (0 < x)

/-- The per-tranche blocking condition of both deletion guards
(app.py lines 1851 and 1931):
`statut in ('recu', 'partiel') or (montant_recu and montant_recu > 0)`. -/
def trancheRecue (t : TrancheFinancement) : Bool :=
  decide (t.statut = "recu") || decide (t.statut = "partiel") || recuPositif t

/-- `supprimer_financement` (app.py lines 1843-1864): deletion is refused
(danger) when any tranche was already received, totally or partially;
otherwise the financing and its tranches are deleted (cascade). -/
def supprimer_financement (f : Financement) : Except Err Unit :=
  if f.tranches.any trancheRecue then .error .tranchesDejaRecues
  else .ok ()

/-- `supprimer_tranche` (app.py lines 1923-1939): deletion of one tranche
is refused (danger) when that tranche was already received, totally or
partially. -/
def supprimer_tranche (t : TrancheFinancement) : Except Err Unit :=
  if trancheRecue t then .error .trancheDejaRecue
  else .ok ()

/-! ## Concrete instances

Concrete rows used to evaluate the operations (witnesses of provable
statements and failing inputs of the divergences). -/

/-- A closed fiscal year 2024. -/
def exerciceClos2024 : ExerciceComptable :=
  { id := 1, annee := 2024, date_debut := 20240101, date_fin := 20241231,
    cloture := true }

/-- An open fiscal year 2025. -/
def exercice2025 : ExerciceComptable :=
  { id := 2, annee := 2025, date_debut := 20250101, date_fin := 20251231,
    cloture := false }

/-- A balanced debit line: 100000 on an expense account. -/
def ligneDebit601 : LigneEcriture :=
  { compte_id := 601, projet_id := none, ligne_budget_id := none,
    libelle := "Achat fournitures", debit := 100000, credit := 0,
    imputations_analytiques := [] }

/-- The matching credit line: 100000 on a treasury account. -/
def ligneCredit521 : LigneEcriture :=
  { compte_id := 521, projet_id := none, ligne_budget_id := none,
    libelle := "Achat fournitures", debit := 0, credit := 100000,
    imputations_analytiques := [] }

/-- A balanced, non-validated entry sitting in the closed year 2024. -/
def pieceExerciceClos : PieceComptable :=
  { numero := "PC202400007", date_piece := 20240315, journal_id := 1,
    exercice_id := 1, libelle := "Achat fournitures", reference := none,
    devise_id := none, taux_change := 1, valide := false,
    lignes := [ligneDebit601, ligneCredit521] }

/-- A validated entry in the open year 2025. -/
def pieceValidee : PieceComptable :=
  { numero := "PC202500004", date_piece := 20250210, journal_id := 1,
    exercice_id := 2, libelle := "Loyer", reference := none,
    devise_id := none, taux_change := 1, valide := true,
    lignes := [ligneDebit601, ligneCredit521] }

/-- An arbitrary edit form (its content is irrelevant: the validated-entry
guard fires first). -/
def formQuelconque : ModifForm :=
  { date_piece := 20250301, journal_id := 1, exercice_id := 2,
    libelle := "Loyer", reference := none, devise_id := none,
    taux_change := none, lignes := [] }

/-- Expert-mode form whose decimal totals differ by exactly one cent:
debit 2.11, credit 2.10. -/
def formEcartUnCentime : ExpertForm :=
  { date_piece := 20250612, journal_id := 1, exercice_id := 2,
    libelle := "Frais divers", reference := none, devise_id := none,
    taux_change := none,
    lignes :=
      [ { compte_id := some 601, projet_id := none,
          debit := some (211, 100), credit := none },
        { compte_id := some 521, projet_id := none,
          debit := none, credit := some (210, 100) } ] }

/-- Expert-mode form with balanced lines but a date far outside the only
(open) fiscal year. -/
def formDateHorsPlage : ExpertForm :=
  { date_piece := 19900101, journal_id := 1, exercice_id := 2,
    libelle := "Ecriture antidatee", reference := none, devise_id := none,
    taux_change := none,
    lignes :=
      [ { compte_id := some 601, projet_id := none,
          debit := some (100000, 1), credit := none },
        { compte_id := some 521, projet_id := none,
          debit := none, credit := some (100000, 1) } ] }

/-- The depreciation example of the specification: asset acquired
2025-07-01, value 1,200,000, life 3 years. -/
def immoServeur : Immobilisation :=
  { code := "IMMO-2025-001", categorie := "informatique",
    date_acquisition_annee := 2025, date_acquisition_mois := 7,
    valeur_acquisition := 1200000, duree_amortissement := 3,
    statut := "actif", lignes_amortissement := [] }

/-- The same asset after `calculer_amortissement` for 2025: dotation
pro-rated by 6/12 to 200,000. -/
def immoServeurApres : Immobilisation :=
  { immoServeur with
    lignes_amortissement :=
      [{ exercice_id := 2, annee := 2025, dotation := 200000,
         cumul := 200000, valeur_nette := 1000000 }] }

/-- A settled advance. -/
def avanceSoldee : Avance :=
  { numero := "AV2025001", beneficiaire := "A. Diallo", montant := 50000,
    statut := "soldee", montant_justifie := 50000, montant_rembourse := 0,
    justification_notes := none, date_justification := some 20250301,
    date_solde := some 20250301 }

/-- A partially received tranche. -/
def tranchePartielle : TrancheFinancement :=
  { numero := 1, montant_prevu := 1000000, montant_recu := some 400000,
    statut := "partiel" }

/-- A financing whose first tranche was partially received. -/
def financementEntame : Financement :=
  { reference := "FIN-2025-03", montant := 3000000, statut := "actif",
    tranches :=
      [ tranchePartielle,
        { numero := 2, montant_prevu := 2000000, montant_recu := none,
          statut := "attendu" } ] }

/-- An unbalanced entry carrying an analytical allocation, to be
duplicated. -/
def pieceDesequilibree : PieceComptable :=
  { numero := "PC202500009", date_piece := 20250505, journal_id := 1,
    exercice_id := 2, libelle := "Saisie partielle", reference := some "F77",
    devise_id := none, taux_change := 1, valide := true,
    lignes :=
      [ { compte_id := 601, projet_id := some 4, ligne_budget_id := some 9,
          libelle := "Saisie partielle", debit := 100000, credit := 0,
          imputations_analytiques :=
            [{ projet_id := 4, ligne_budget_id := some 9,
               pourcentage := 60, montant := 60000 }] } ] }

/-- The tuple of line data that C10 compares between an entry and its
duplicate: account, project and budget-line references, the two amounts,
and the (project, percentage, amount) triples of the allocations. -/
def cleLigne (l : LigneEcriture) :
    ℕ × Option ℕ × Option ℕ × ℚ × ℚ × List (ℕ × ℚ × ℚ) :=
  (l.compte_id, l.projet_id, l.ligne_budget_id, l.debit, l.credit,
    l.imputations_analytiques.map (fun im =>
      (im.projet_id, im.pourcentage, im.montant)))

/-! ## Faithful arithmetic of the recorded dotation

`calculer_amortissement` records
`dotation = Decimal(str(float(valeur_acquisition) / duree_amortissement))`
(app.py lines 719-723 and 4687), pro-rated on line 4695 by
`dotation * (12 - mois + 1) / 12` in Python's default decimal context
(28 significant digits, round-half-even).  The definitions below model this
pipeline value-exactly: the binary64 division is correctly rounded
(`fdivNat`), `str` of a float is CPython's shortest decimal representation
that rounds back to the same double (`pyStrVal`, found by trying 1 to 17
significant digits), and the decimal context operations round to 28
significant digits, ties to even.  Everything is on `ℕ`/`ℤ` so the kernel
can evaluate it; only the value of each `Decimal` is modelled (its quantum
never influences a downstream value here). -/

/-- Scale the fraction `N / D` up by powers of ten until `N / D ≥ lo`. -/
def upPhase10 (lo : ℕ) : ℕ → ℕ → ℕ → ℤ → ℕ × ℕ × ℤ
  | 0, N, D, t => (N, D, t)
  | fuel + 1, N, D, t =>
    if N < D * lo then upPhase10 lo fuel (N * 10) D (t - 1) else (N, D, t)

/-- Scale the fraction `N / D` down by powers of ten until `N / D < hi`. -/
def downPhase10 (hi : ℕ) : ℕ → ℕ → ℕ → ℤ → ℕ × ℕ × ℤ
  | 0, N, D, t => (N, D, t)
  | fuel + 1, N, D, t =>
    if D * hi ≤ N then downPhase10 hi fuel N (D * 10) (t + 1) else (N, D, t)

/-- The decimal number with `k` significant digits nearest to `N / D`
(ties to even), as digits and a power-of-ten exponent. -/
def decNearest (k N D : ℕ) : ℕ × ℤ :=
  let u := upPhase10 (10 ^ (k - 1)) FUEL N D 0
  let w := downPhase10 (10 ^ k) FUEL u.1 u.2.1 u.2.2
  (rne w.1 w.2.1, w.2.2)

/-- The exact rational value of a decimal datum `digits * 10^t`. -/
def decPairVal (d : ℤ × ℤ) : ℚ :=
  if 0 ≤ d.2 then (d.1 : ℚ) * 10 ^ d.2.toNat else (d.1 : ℚ) / 10 ^ (-d.2).toNat

/-- A binary64 value as a signed fraction (numerator, positive
denominator). -/
def F64.frac (x : F64) : ℤ × ℕ :=
  if 0 ≤ x.e then (x.m * 2 ^ x.e.toNat, 1) else (x.m, 2 ^ (-x.e).toNat)

/-- Value equality of two binary64 data (representation independent). -/
def F64.beqVal (x y : F64) : Bool :=
  let e := min x.e y.e
  decide (x.m * 2 ^ (x.e - e).toNat = y.m * 2 ^ (y.e - e).toNat)

/-- IEEE binary64 division of a float by a positive integer: the exact
quotient, correctly rounded. -/
def fdivNat (x : F64) (n : ℕ) : F64 :=
  pyFloat x.frac.1 (x.frac.2 * n)

/-- Python `float()` of a decimal datum `digits * 10^t`. -/
def pyFloatDec (dg : ℕ) (t : ℤ) : F64 :=
  if 0 ≤ t then pyFloat ((dg : ℤ) * 10 ^ t.toNat) 1
  else pyFloat (dg : ℤ) (10 ^ (-t).toNat)

/-- Search for the shortest decimal representation of the positive double
`x` (of value `N / D`): for `k = 1, 2, ...` take the nearest `k`-digit
decimal and return the first one that rounds back to `x`; 17 digits always
round-trip.  The fuel argument counts down from 17. -/
def reprFrom (N D : ℕ) (x : F64) : ℕ → ℕ × ℤ
  | 0 => decNearest 17 N D
  | fuel + 1 =>
    let cand := decNearest (17 - fuel) N D
    if F64.beqVal (pyFloatDec cand.1 cand.2) x then cand
    else reprFrom N D x fuel

/-- The value of CPython `str`/`repr` of a finite float as a decimal datum:
the shortest decimal representation that rounds back to the same double
(exactly what `Decimal(str(x))` then denotes). -/
def pyStrVal (x : F64) : ℤ × ℤ :=
  if x.m = 0 then (0, 0)
  else
    let fr := (F64.fabs x).frac
    let r := reprFrom fr.1.natAbs fr.2 (F64.fabs x) 17
    ((if 0 ≤ x.m then (r.1 : ℤ) else -(r.1 : ℤ)), r.2)

/-- Round a decimal datum to the 28-significant-digit context (the Python
default), ties to even; exact data within 28 digits pass unchanged. -/
def round28 (d : ℤ × ℤ) : ℤ × ℤ :=
  if d.1.natAbs < 10 ^ 28 then d
  else
    let w := downPhase10 (10 ^ 28) FUEL d.1.natAbs 1 d.2
    ((if 0 ≤ d.1 then (rne w.1 w.2.1 : ℤ) else -(rne w.1 w.2.1 : ℤ)), w.2.2)

/-- `Decimal * int` in the 28-digit context: exact product, then context
rounding. -/
def decMulNat (d : ℤ × ℤ) (n : ℕ) : ℤ × ℤ :=
  round28 (d.1 * n, d.2)

/-- `Decimal / int` in the 28-digit context: the quotient correctly rounded
to 28 significant digits, ties to even (value-exact when the quotient is a
short decimal). -/
def decDivNat (d : ℤ × ℤ) (n : ℕ) : ℤ × ℤ :=
  if d.1 = 0 then (0, 0)
  else
    let q := decNearest 28 d.1.natAbs n
    ((if 0 ≤ d.1 then (q.1 : ℤ) else -(q.1 : ℤ)), q.2 + d.2)

/-- The decimal value of `Decimal(str(float(valeur) / duree))`
(app.py lines 719-723 and 4687) for an acquisition value given as the
decimal `valeurNum / valeurDen`, computed faithfully: binary64 conversion
and division, then the shortest round-trip decimal representation. -/
def dotationAnnuelleFidele (valeurNum : ℤ) (valeurDen duree : ℕ) : ℤ × ℤ :=
  pyStrVal (fdivNat (pyFloat valeurNum valeurDen) duree)

/-- The dotation recorded by `calculer_amortissement` for an active asset
with no prior depreciation lines, computed in the code's own arithmetic
(app.py lines 719-723, 4687, 4693-4697): the faithful annual dotation,
then - when the acquisition year equals the processed fiscal year, encoded
here as `some mois` - the prorata `dotation * (12 - mois + 1) / 12` in the
28-digit decimal context.  A zero life yields 0 as in the source
(line 720-723). -/
def dotationEnregistree (valeurNum : ℤ) (valeurDen duree : ℕ)
    (moisAcquisition : Option ℕ) : ℚ :=
  if duree = 0 then 0
  else
    match moisAcquisition with
    | none => decPairVal (dotationAnnuelleFidele valeurNum valeurDen duree)
    | some mois =>
      decPairVal (decDivNat
        (decMulNat (dotationAnnuelleFidele valeurNum valeurDen duree)
          (12 - mois + 1)) 12)

/-! ## Helper lemmas -/

/-- Value of a binary64 datum with a negative exponent. -/
theorem F64.val_negExp (m : ℤ) (n : ℕ) (h : 0 < n) :
    F64.val ⟨m, -(n : ℤ)⟩ = (m : ℚ) / 2 ^ n := by
  have h1 : ¬ (0 : ℤ) ≤ -(n : ℤ) := by omega
  simp [F64.val, h1]

/-- Value of a decimal datum with a negative exponent. -/
theorem decPairVal_negExp (m : ℤ) (n : ℕ) (h : 0 < n) :
    decPairVal (m, -(n : ℤ)) = (m : ℚ) / 10 ^ n := by
  have h1 : ¬ (0 : ℤ) ≤ -(n : ℤ) := by omega
  simp [decPairVal, h1]

/-- The binary64 value nearest to 1/100, in mantissa/exponent form. -/
theorem pyFloat_un_centieme : pyFloat 1 100 = ⟨5764607523034235, -59⟩ := by
  decide

/-- The float balance tolerance as an explicit rational: it exceeds 1/100
by about 2.1e-19. -/
theorem float001_eq : float001 = 5764607523034235 / 576460752303423488 := by
  rw [float001, pyFloat_un_centieme,
    show (⟨5764607523034235, -59⟩ : F64) =
      ⟨5764607523034235, -((59 : ℕ) : ℤ)⟩ by norm_num]
  rw [F64.val_negExp _ _ (by norm_num)]
  norm_num

/-- `amortissement_annuel` coincides with plain rational division even for
a zero life (both sides are then 0). -/
theorem amortissement_annuel_div (i : Immobilisation) :
    i.amortissement_annuel = i.valeur_acquisition / (i.duree_amortissement : ℚ) := by
  unfold Immobilisation.amortissement_annuel
  by_cases h : 0 < i.duree_amortissement
  · simp [h]
  · have h0 : i.duree_amortissement = 0 := by omega
    simp [h0]

/-! ## Claim theorems -/

/-- C4: the claim that all monetary arithmetic avoids binary floating point
fails on the code: expert-mode entry creation stores each submitted amount
through Python `float(...)` (app.py lines 2641-2642), and the stored
binary64 value of the decimal amount 0.1 differs from the exact decimal. -/
theorem montant_stocke_en_binaire64_non_exact :
    (pyFloatOpt (some (1, 10))).val ≠ decVal (some (1, 10)) := by
  have h : pyFloatOpt (some (1, 10)) = ⟨7205759403792794, -56⟩ := by decide
  rw [h, decVal,
    show (⟨7205759403792794, -56⟩ : F64) =
      ⟨7205759403792794, -((56 : ℕ) : ℤ)⟩ by norm_num]
  rw [F64.val_negExp _ _ (by norm_num)]
  norm_num

/-- C1: `valider_ecriture` never checks that the entry's fiscal year is
open: on a balanced non-validated entry of the closed year 2024 it commits
`valide := true` instead of failing with a ForbiddenError, contradicting
the closed-year immutability property. -/
theorem valider_ecriture_ignore_exercice_clos :
    exerciceClos2024.cloture = true
    ∧ pieceExerciceClos.exercice_id = exerciceClos2024.id
    ∧ pieceExerciceClos.valide = false
    ∧ valider_ecriture pieceExerciceClos =
        .ok { pieceExerciceClos with valide := true } := by
  refine ⟨rfl, rfl, rfl, ?_⟩
  have hbal : pieceExerciceClos.est_equilibree := by
    unfold PieceComptable.est_equilibree PieceComptable.total_debit
      PieceComptable.total_credit
    rw [float001_eq]
    norm_num [pieceExerciceClos, ligneDebit601, ligneCredit521]
  unfold valider_ecriture
  rw [if_neg (by decide), if_neg (by simpa using hbal)]

set_option maxRecDepth 100000 in
/-- C2: the create-iff-balanced property fails on the code: with the open
year 2025, expert mode persists the two-line entry debit 2.11 / credit 2.10
even though its decimal totals differ by exactly 0.01 (not below the
tolerance), because the amounts and the tolerance are compared as binary64
values (`abs(2.11 - 2.10)` evaluates below the float literal `0.01`). -/
theorem nouvelle_ecriture_expert_persiste_ecart_un_centime :
    estOk (nouvelle_ecriture_expert [exercice2025] "PC202500001"
        formEcartUnCentime) = true
    ∧ (formEcartUnCentime.lignes.map (fun l => decVal l.debit)).sum
        - (formEcartUnCentime.lignes.map (fun l => decVal l.credit)).sum
        = 1 / 100
    ∧ ¬ (|(1 : ℚ) / 100| < 1 / 100) := by
  refine ⟨by decide, ?_, ?_⟩
  · norm_num [formEcartUnCentime, decVal]
  · rw [abs_of_pos (by norm_num : (0 : ℚ) < 1 / 100)]
    exact lt_irrefl _

set_option maxRecDepth 100000 in
/-- C3: expert mode never validates the entry date against the fiscal-year
range: an entry dated 1990-01-01, with the only open year being 2025, is
persisted (with that date, in the submitted year) instead of failing with a
ValidationError. -/
theorem nouvelle_ecriture_expert_ignore_date_hors_exercice :
    (Except.toOption (nouvelle_ecriture_expert [exercice2025] "PC202500002"
        formDateHorsPlage)).map (fun p => (p.date_piece, p.exercice_id, p.valide))
      = some (19900101, 2, false)
    ∧ formDateHorsPlage.date_piece < exercice2025.date_debut := by
  exact ⟨by decide, by decide⟩

/-- C5: `modifier_ecriture` on a validated entry always fails (its first
guard, a ForbiddenError site) and the committed state is unchanged. -/
theorem modifier_ecriture_validee_echoue (p : PieceComptable)
    (exercices : List ExerciceComptable) (form : ModifForm)
    (h : p.valide = true) :
    modifier_ecriture p exercices form = .error .modificationEcritureValidee
    ∧ Err.kind .modificationEcritureValidee = .forbiddenErr
    ∧ etatApres p (modifier_ecriture p exercices form) = p := by
  have hmod : modifier_ecriture p exercices form
      = .error .modificationEcritureValidee := by
    unfold modifier_ecriture
    rw [if_pos h]
  exact ⟨hmod, rfl, by rw [hmod]; rfl⟩

/-- C5 witness: the validated entry `pieceValidee`. -/
theorem modifier_ecriture_validee_echoue_witness :
    pieceValidee.valide = true
    ∧ (modifier_ecriture pieceValidee [exercice2025] formQuelconque
        = .error .modificationEcritureValidee
      ∧ Err.kind .modificationEcritureValidee = .forbiddenErr
      ∧ etatApres pieceValidee
          (modifier_ecriture pieceValidee [exercice2025] formQuelconque)
          = pieceValidee) :=
  ⟨rfl, modifier_ecriture_validee_echoue pieceValidee [exercice2025]
    formQuelconque rfl⟩

/-- C8: soldee and deduite are terminal advance states: both
`justifier_avance` (whatever amounts and notes are submitted) and
`deduire_avance` reject such an advance and leave it unchanged. -/
theorem avance_etats_terminaux (a : Avance) (mj mr : ℚ)
    (notes : Option String) (now : ℤ)
    (h : a.statut = "soldee" ∨ a.statut = "deduite") :
    justifier_avance a mj mr notes now = .error .avanceNonJustifiable
    ∧ etatApres a (justifier_avance a mj mr notes now) = a
    ∧ deduire_avance a now = .error .avanceDejaSoldeeOuDeduite
    ∧ etatApres a (deduire_avance a now) = a := by
  have hj : justifier_avance a mj mr notes now
      = .error .avanceNonJustifiable := by
    unfold justifier_avance
    rcases h with h | h <;> rw [if_pos (by rw [h]; decide)]
  have hd : deduire_avance a now = .error .avanceDejaSoldeeOuDeduite := by
    unfold deduire_avance
    rw [if_pos h]
  exact ⟨hj, by rw [hj]; rfl, hd, by rw [hd]; rfl⟩

/-- C8 witness: the settled advance `avanceSoldee`. -/
theorem avance_etats_terminaux_witness :
    avanceSoldee.statut = "soldee"
    ∧ (justifier_avance avanceSoldee 50000 0 none 20250401
        = .error .avanceNonJustifiable
      ∧ etatApres avanceSoldee
          (justifier_avance avanceSoldee 50000 0 none 20250401) = avanceSoldee
      ∧ deduire_avance avanceSoldee 20250401
        = .error .avanceDejaSoldeeOuDeduite
      ∧ etatApres avanceSoldee (deduire_avance avanceSoldee 20250401)
        = avanceSoldee) :=
  ⟨rfl, avance_etats_terminaux avanceSoldee 50000 0 none 20250401
    (Or.inl rfl)⟩

/-- C9: once a tranche of a financing has a positive received amount or a
received/partial status, deleting the financing fails (ForbiddenError) and
deleting that tranche fails too; nothing is deleted. -/
theorem suppression_financement_tranche_recue_bloquee (f : Financement)
    (t : TrancheFinancement) (hmem : t ∈ f.tranches)
    (h : (∃ x, t.montant_recu = some x ∧ 0 < x)
      ∨ t.statut = "recu" ∨ t.statut = "partiel") :
    supprimer_financement f = .error .tranchesDejaRecues
    ∧ supprimer_tranche t = .error .trancheDejaRecue
    ∧ Err.kind .tranchesDejaRecues = .forbiddenErr
    ∧ Err.kind .trancheDejaRecue = .forbiddenErr := by
  have ht : trancheRecue t = true := by
    unfold trancheRecue recuPositif
    rcases h with ⟨x, hx, hpos⟩ | h | h
    · rw [hx]
      simp [hpos]
    · simp [h]
    · simp [h]
  refine ⟨?_, ?_, rfl, rfl⟩
  · unfold supprimer_financement
    rw [if_pos (List.any_eq_true.mpr ⟨t, hmem, ht⟩)]
  · unfold supprimer_tranche
    rw [if_pos ht]

/-- C9 witness: the partially received tranche of `financementEntame`. -/
theorem suppression_financement_tranche_recue_bloquee_witness :
    tranchePartielle ∈ financementEntame.tranches
    ∧ (supprimer_financement financementEntame = .error .tranchesDejaRecues
      ∧ supprimer_tranche tranchePartielle = .error .trancheDejaRecue
      ∧ Err.kind .tranchesDejaRecues = .forbiddenErr
      ∧ Err.kind .trancheDejaRecue = .forbiddenErr) :=
  ⟨List.mem_cons_self _ _,
    suppression_financement_tranche_recue_bloquee financementEntame
      tranchePartielle (List.mem_cons_self _ _)
      (Or.inl ⟨400000, rfl, by norm_num⟩)⟩

/-- Duplicating a line preserves its account, project, budget line, both
amounts and its allocation data. -/
theorem cleLigne_dupliquerLigne (l : LigneEcriture) :
    cleLigne (dupliquerLigne l) = cleLigne l := by
  simp [cleLigne, dupliquerLigne, dupliquerImputation, List.map_map,
    Function.comp]

/-- C10: whenever some fiscal year is open, `dupliquer_ecriture` commits a
copy of any entry, balanced or not: the copy is non-validated, dated today,
in the open year, its lines carry exactly the original accounts, projects,
budget lines, debits and credits, its allocations carry exactly the
original percentages and amounts, and its totals (hence its balance status)
equal the original's.  No balance check is performed. -/
theorem dupliquer_ecriture_copie_fidele (p : PieceComptable)
    (exercices : List ExerciceComptable) (today : ℤ) (numero : String)
    (ex : ExerciceComptable) (hex : findExerciceOuvert exercices = some ex) :
    ∃ p', dupliquer_ecriture p exercices today numero = .ok p'
      ∧ p'.valide = false
      ∧ p'.date_piece = today
      ∧ p'.exercice_id = ex.id
      ∧ p'.lignes.map cleLigne = p.lignes.map cleLigne
      ∧ p'.total_debit = p.total_debit
      ∧ p'.total_credit = p.total_credit := by
  unfold dupliquer_ecriture
  rw [hex]
  refine ⟨_, rfl, rfl, rfl, rfl, ?_, ?_, ?_⟩
  · simp only [List.map_map]
    exact List.map_congr_left (fun l _ => cleLigne_dupliquerLigne l)
  · unfold PieceComptable.total_debit
    simp only [List.map_map]
    exact congrArg List.sum (List.map_congr_left (fun l _ => rfl))
  · unfold PieceComptable.total_credit
    simp only [List.map_map]
    exact congrArg List.sum (List.map_congr_left (fun l _ => rfl))

/-- C10 witness: duplicating the unbalanced allocated entry
`pieceDesequilibree` into the open year 2025. -/
theorem dupliquer_ecriture_copie_fidele_witness :
    ¬ pieceDesequilibree.est_equilibree
    ∧ findExerciceOuvert [exerciceClos2024, exercice2025] = some exercice2025
    ∧ (∃ p', dupliquer_ecriture pieceDesequilibree
          [exerciceClos2024, exercice2025] 20251104 "PC202500031" = .ok p'
        ∧ p'.valide = false
        ∧ p'.date_piece = 20251104
        ∧ p'.exercice_id = exercice2025.id
        ∧ p'.lignes.map cleLigne = pieceDesequilibree.lignes.map cleLigne
        ∧ p'.total_debit = pieceDesequilibree.total_debit
        ∧ p'.total_credit = pieceDesequilibree.total_credit) := by
  refine ⟨?_, by decide, dupliquer_ecriture_copie_fidele pieceDesequilibree
    [exerciceClos2024, exercice2025] 20251104 "PC202500031" exercice2025
    (by decide)⟩
  unfold PieceComptable.est_equilibree PieceComptable.total_debit
    PieceComptable.total_credit
  rw [float001_eq]
  norm_num [pieceDesequilibree]

/-- Inversion of a successful `calculer_amortissement`: the asset was
active, some fiscal year `ex` was open, no line existed yet for `ex`, and
the result appends exactly `ligneCalculee i ex`. -/
theorem calculer_amortissement_ok_inversion (i i' : Immobilisation)
    (exercices : List ExerciceComptable)
    (h : calculer_amortissement i exercices = .ok i') :
    i.statut = "actif"
    ∧ ∃ ex, findExerciceOuvert exercices = some ex
      ∧ (i.lignes_amortissement.any (fun l => l.exercice_id = ex.id)) = false
      ∧ i' = { i with
          lignes_amortissement :=
            i.lignes_amortissement ++ [ligneCalculee i ex] } := by
  unfold calculer_amortissement at h
  split at h
  · exact absurd h (by simp)
  next hst =>
    split at h
    next hex => exact absurd h (by simp)
    next ex hex =>
      split at h
      next hdup => exact absurd h (by simp)
      next hdup =>
        simp only [Except.ok.injEq] at h
        exact ⟨by simpa using hst, ex, hex, by simpa using hdup, h.symm⟩

/-- C6: a second `calculer_amortissement` for the same asset and the same
(still open) fiscal year fails with the ConflictError site and leaves the
asset's cumulative depreciation unchanged. -/
theorem calculer_amortissement_idempotent (i i' : Immobilisation)
    (exercices : List ExerciceComptable)
    (h : calculer_amortissement i exercices = .ok i') :
    calculer_amortissement i' exercices = .error .amortissementDejaCalcule
    ∧ Err.kind .amortissementDejaCalcule = .conflictErr
    ∧ (etatApres i' (calculer_amortissement i' exercices)).cumul_amortissement
        = i'.cumul_amortissement := by
  obtain ⟨hst, ex, hex, hdup, hi⟩ :=
    calculer_amortissement_ok_inversion i i' exercices h
  have hsecond : calculer_amortissement i' exercices
      = .error .amortissementDejaCalcule := by
    have hany : (i'.lignes_amortissement.any
        (fun l => l.exercice_id = ex.id)) = true := by
      rw [hi]
      simp [ligneCalculee]
    have hst' : ¬ (i'.statut ≠ "actif") := by
      rw [hi]
      simpa using hst
    unfold calculer_amortissement
    rw [if_neg hst', hex]
    split
    next heq => exact absurd heq (by simp)
    next ex2 heq =>
      have hx : ex2 = ex := by
        injection heq with h2
        exact h2.symm
      subst hx
      rw [if_pos hany]
  exact ⟨hsecond, rfl, by rw [hsecond]; rfl⟩

/-- C6 witness: depreciating `immoServeur` for the open year 2025, then
again. -/
theorem calculer_amortissement_idempotent_witness :
    calculer_amortissement immoServeur [exercice2025] = .ok immoServeurApres
    ∧ (calculer_amortissement immoServeurApres [exercice2025]
        = .error .amortissementDejaCalcule
      ∧ Err.kind .amortissementDejaCalcule = .conflictErr
      ∧ (etatApres immoServeurApres
          (calculer_amortissement immoServeurApres [exercice2025])).cumul_amortissement
          = immoServeurApres.cumul_amortissement) := by
  have h : calculer_amortissement immoServeur [exercice2025]
      = .ok immoServeurApres := by
    unfold calculer_amortissement
    norm_num [immoServeur, immoServeurApres, findExerciceOuvert,
      exercice2025, ligneCalculee, dotationCalculee,
      Immobilisation.amortissement_annuel,
      Immobilisation.cumul_amortissement]
  exact ⟨h, calculer_amortissement_idempotent immoServeur immoServeurApres
    [exercice2025] h⟩

set_option maxRecDepth 100000 in
/-- C7 counterexample: the recorded dotation does not equal
`valeur_acquisition / duree_amortissement` in general.  For an active asset
of value 100 and life 3 years with no prior depreciation, acquired outside
the processed year (no prorata), the code records
`Decimal(str(float(100) / 3))`, i.e. the 17-digit decimal
33.333333333333336 - the shortest decimal that rounds back to the binary64
quotient - and not the exact quotient 100/3. -/
theorem dotation_enregistree_non_exacte :
    dotationEnregistree 100 1 3 none = 33333333333333336 / 10 ^ 15
    ∧ dotationEnregistree 100 1 3 none ≠ 100 / 3 := by
  have h : dotationAnnuelleFidele 100 1 3 = (33333333333333336, -15) := by
    decide
  have hval : dotationEnregistree 100 1 3 none
      = 33333333333333336 / 10 ^ 15 := by
    unfold dotationEnregistree
    rw [if_neg (by norm_num), h,
      show ((33333333333333336 : ℤ), (-15 : ℤ))
        = ((33333333333333336 : ℤ), -((15 : ℕ) : ℤ)) by norm_num,
      decPairVal_negExp _ _ (by norm_num)]
    norm_num
  refine ⟨hval, ?_⟩
  rw [hval]
  norm_num

set_option maxRecDepth 100000 in
/-- C7 (amended): the recorded dotation is the formula evaluated in the
code's arithmetic - binary64 division re-rounded through the shortest
decimal representation, then the 28-digit decimal prorata - which
coincides with the exact formula exactly when those roundings are exact.
At the specification's example (value 1,200,000, life 3 years, acquired in
month 7 of the processed year, no prior depreciation) every step is exact:
the recorded dotation is 200,000 = 1,200,000 / 3 * (13 - 7) / 12. -/
theorem dotation_enregistree_exemple_exact :
    dotationEnregistree 1200000 1 3 (some 7) = 200000
    ∧ (200000 : ℚ) = 1200000 / 3 * (((13 : ℚ) - 7) / 12) := by
  have h : decDivNat (decMulNat (dotationAnnuelleFidele 1200000 1 3)
      (12 - 7 + 1)) 12 = (2000000000000000000000000000, -22) := by
    decide
  refine ⟨?_, by norm_num⟩
  unfold dotationEnregistree
  rw [if_neg (by norm_num)]
  show decPairVal (decDivNat (decMulNat (dotationAnnuelleFidele 1200000 1 3)
    (12 - 7 + 1)) 12) = 200000
  rw [h,
    show ((2000000000000000000000000000 : ℤ), (-22 : ℤ))
      = ((2000000000000000000000000000 : ℤ), -((22 : ℕ) : ℤ)) by norm_num,
    decPairVal_negExp _ _ (by norm_num)]
  norm_num
